import Mathlib

/-!
Verification of the multi-source resolution and failover core of OrionTV
(src/stores/playerStore.ts: the player store and the bundled detail store).

The TypeScript code is shallowly embedded: JavaScript numbers that only ever
hold whole milliseconds are modelled as `Nat` (or `Int` where the code can go
negative), the comparator score computed with the literals 0.6/0.4 in
binary64 doubles is modelled exactly by an integer table of the 25 reachable
double values scaled by 2^54, JS `Set`/`Map` collaborators as lists,
and the network /
media layer / storage collaborators as explicit oracles or association
lists.  Timers (`setTimeout`) are modelled as armed-timer data in the state
plus explicit firing events, matching the single-threaded event-loop model.
-/

namespace OrionTV

/-- JS `String.prototype.includes` restricted to what the code needs:
`pat` occurs contiguously in `s` starting at the head. -/
def matchesHere : List Char → List Char → Bool
  | _, [] => true
  | [], _ :: _ => false
  | c :: cs, p :: ps => c == p && matchesHere cs ps

/-- Does `pat` occur contiguously anywhere in the character list? -/
def hasSubstrAux (pat : List Char) : List Char → Bool
  | [] => matchesHere [] pat
  | c :: rest => matchesHere (c :: rest) pat || hasSubstrAux pat rest

/-- JS `s.includes(pat)`. -/
def strIncludes (s pat : String) : Bool :=
  hasSubstrAux pat.toList s.toList

/-- JS `s.endsWith(pat)`. -/
def strEndsWith (s pat : String) : Bool :=
  List.isSuffixOf pat.toList s.toList

/-- JS `s.trim()`: strip leading and trailing whitespace. -/
def strTrim (s : String) : String :=
  String.mk
    (((s.toList.dropWhile Char.isWhitespace).reverse.dropWhile
      Char.isWhitespace).reverse)

/-- `SearchResultWithResolution` of src/stores/playerStore.ts (detail-store
section): a per-source candidate for one title.  `resolution` is the detected
stream resolution (`string | null | undefined` collapsed to `Option`),
`networkSpeed` the measured latency in ms, `lastSpeedTest` its timestamp. -/
structure SearchResult where
  source : String
  source_name : String
  id : Nat
  title : String
  poster : String
  year : String
  episodes : List String
  resolution : Option String := none
  networkSpeed : Option Nat := none
  lastSpeedTest : Option Nat := none
deriving Repr, DecidableEq

/-- The detail store's state (src/stores/playerStore.ts, `DetailState`).
UI-only fields (`sources`, `loading`, `error`, `q`, `allSourcesLoaded`,
`controller`, `isFavorited`) are not modelled; `failedSources` is a JS `Set`
modelled as a duplicate-free list. -/
structure DetailState where
  searchResults : List SearchResult := []
  detail : Option SearchResult := none
  failedSources : List String := []
deriving Repr, DecidableEq

/-- `markSourceAsFailed` (src/stores/playerStore.ts lines 1283-1292): adds
`source` to the failed set; the reason is only logged. -/
def markSourceAsFailed (st : DetailState) (source : String) (_reason : String) :
    DetailState :=
  { st with failedSources := st.failedSources.insert source }

/-- `setDetail` (src/stores/playerStore.ts lines 1253-1258); the favourite
lookup is a storage side effect outside the modelled state. -/
def setDetail (st : DetailState) (detail : SearchResult) : DetailState :=
  { st with detail := some detail }

/-- `resolutionPriority` inside `getNextAvailableSource` (lines 1379-1385):
resolution tier by substring match on the detected resolution string. -/
def resolutionPriority (res : String) : Nat :=
  if strIncludes res "1080" then 4
  else if strIncludes res "720" then 3
  else if strIncludes res "480" then 2
  else if strIncludes res "360" then 1
  else 0

/-- `speedScore` inside `getNextAvailableSource` (lines 1389-1396): latency
bucket, lower is better; an unmeasured speed gets the middle bucket 3 and a
measured speed of 2000ms or more gets 4. -/
def speedScore (speed : Option Nat) : Nat :=
  match speed with
  | none => 3
  | some s =>
    if s < 300 then 0
    else if s < 600 then 1
    else if s < 1000 then 2
    else if s < 2000 then 3
    else 4

/-- The exact IEEE-binary64 value of the comparator's composite score
`rp * 0.6 + s4 * 0.4` (lines 1398-1412, with `rp = resolutionPriority` and
`s4 = 4 - speedScore`), scaled by 2^54.  JS numbers are binary64 doubles,
so the comparator computes `fl(fl(rp * fl(0.6)) + fl(s4 * fl(0.4)))` with
round-to-nearest-even; for the 25 reachable inputs (rp, s4 ∈ 0..4) every
such double is exactly the listed integer divided by 2^54, so comparing
the integers compares the doubles exactly.  The float noise matters:
`2 * 0.6 + 0 * 0.4` gives 21617278211378380 while `0 * 0.6 + 3 * 0.4`
gives 21617278211378384, although both equal 6/5 in exact arithmetic, so
the comparator orders such exact-score ties by rounding noise; conversely
`0 * 0.6 + 4 * 0.4` and `2 * 0.6 + 1 * 0.4` round to the same double
28823037615171176/2^54, a genuine comparator tie.  Inputs outside the
table cannot arise (`resolutionPriority` and `speedScore` are at most
4). -/
def floatScoreKey (rp s4 : Nat) : Nat :=
  match rp, s4 with
  | 0, 0 => 0
  | 0, 1 => 7205759403792794
  | 0, 2 => 14411518807585588
  | 0, 3 => 21617278211378384
  | 0, 4 => 28823037615171176
  | 1, 0 => 10808639105689190
  | 1, 1 => 18014398509481984
  | 1, 2 => 25220157913274776
  | 1, 3 => 32425917317067576
  | 1, 4 => 39631676720860368
  | 2, 0 => 21617278211378380
  | 2, 1 => 28823037615171176
  | 2, 2 => 36028797018963968
  | 2, 3 => 43234556422756768
  | 2, 4 => 50440315826549552
  | 3, 0 => 32425917317067568
  | 3, 1 => 39631676720860360
  | 3, 2 => 46837436124653152
  | 3, 3 => 54043195528445952
  | 3, 4 => 61248954932238744
  | 4, 0 => 43234556422756760
  | 4, 1 => 50440315826549552
  | 4, 2 => 57646075230342352
  | 4, 3 => 64851834634135144
  | 4, 4 => 72057594037927936
  | _, _ => 0

/-- The comparator's composite score of one candidate (lines 1398-1412):
the binary64 value of `resolutionPriority * 0.6 + (4 - speedScore) * 0.4`,
represented exactly through `floatScoreKey`. -/
def totalScore (r : SearchResult) : Nat :=
  floatScoreKey (resolutionPriority (r.resolution.getD ""))
    (4 - speedScore r.networkSpeed)

/-- Stable insertion of a candidate into a list sorted by descending
`totalScore`; an element inserted from the left goes before later elements
of equal score, matching the stable `Array.prototype.sort` with comparator
`(a, b) => bTotalScore - aTotalScore`. -/
def insertByScoreDesc (x : SearchResult) : List SearchResult → List SearchResult
  | [] => [x]
  | y :: ys =>
    if totalScore x ≥ totalScore y then x :: y :: ys
    else y :: insertByScoreDesc x ys

/-- The stable descending sort performed at lines 1373-1419. -/
def sortByScoreDesc : List SearchResult → List SearchResult
  | [] => []
  | x :: xs => insertByScoreDesc x (sortByScoreDesc xs)

/-- The candidate filter of `getNextAvailableSource` (lines 1348-1353): not
the current source, not failed, and has an episode at `episodeIndex`.
`episodeIndex` is an `Int` because the player's `currentEpisodeIndex` starts
at -1.  (`result.episodes` is a non-null array in `SearchResult`, so the JS
truthiness guard on it is always true.) -/
def availableSources (st : DetailState) (currentSource : String)
    (episodeIndex : Int) : List SearchResult :=
  st.searchResults.filter fun r =>
    decide (r.source ≠ currentSource) &&
    !(st.failedSources.contains r.source) &&
    decide ((r.episodes.length : Int) > episodeIndex)

/-- `getNextAvailableSource` (src/stores/playerStore.ts lines 1341-1425):
filter, then stable sort by descending composite score, then take the first
element.  The asynchronous background speed measurement (lines 1366-1370)
does not change the returned value and is not modelled. -/
def getNextAvailableSource (st : DetailState) (currentSource : String)
    (episodeIndex : Int) : Option SearchResult :=
  let avail := availableSources st currentSource episodeIndex
  if avail.isEmpty then none
  else (sortByScoreDesc avail).head?

/-- First maximum of `f` over a list: the element with the greatest value,
the earliest one on ties.  Reference implementation used to state what the
stable sort + head computes. -/
def firstMaxBy (f : SearchResult → Nat) : List SearchResult → Option SearchResult
  | [] => none
  | x :: xs =>
    match firstMaxBy f xs with
    | none => some x
    | some y => if f y > f x then some y else some x

/-- Resolution detection attached per incoming result inside
`processAndSetResults` (lines 1007-1024): probe the first episode URL through
the `resolve` oracle (`getResolutionFromM3U8`; `none` = failure or no
episodes), and overwrite the `resolution` field with its outcome. -/
def attachResolution (resolve : String → Option String) (r : SearchResult) :
    SearchResult :=
  { r with
    resolution :=
      match r.episodes with
      | [] => none
      | e :: _ => resolve e }

/-- `processAndSetResults` (src/stores/playerStore.ts lines 1003-1046), state
part: attach resolutions, then either replace the result list (`merge =
false`) or append those incoming results whose source is not already
present (`merge = true`); `detail` keeps its value or takes the first merged
result. -/
def processAndSetResults (st : DetailState) (resolve : String → Option String)
    (results : List SearchResult) (merge : Bool) : DetailState :=
  let resultsWithResolution := results.map (attachResolution resolve)
  let existingSources := st.searchResults.map (·.source)
  let newResults :=
    resultsWithResolution.filter fun r => !(existingSources.contains r.source)
  let finalResults :=
    if merge then st.searchResults ++ newResults else resultsWithResolution
  { st with
    searchResults := finalResults,
    detail :=
      match st.detail with
      | some d => some d
      | none => finalResults.head? }

/-! The player store (src/stores/playerStore.ts, `PlayerState`). -/

/-- `Episode` of the player store (lines 11-14). -/
structure Episode where
  url : String
  title : String
deriving Repr, DecidableEq

/-- `AVPlaybackStatus` from the media layer, restricted to the fields the
store reads: loaded statuses carry playing/buffering flags, position,
optional duration and the finished flag; unloaded ones an optional error. -/
inductive AVPlaybackStatus where
  | notLoaded (error : Option String)
  | loaded (isPlaying : Bool) (isBuffering : Bool) (positionMillis : Nat)
      (durationMillis : Option Nat) (didJustFinish : Bool)
deriving Repr, DecidableEq

/-- `PlayRecord` as written by `PlayRecordManager.save` (lines 570-581). -/
structure PlayRecord where
  title : String
  cover : String
  index : Int
  total_episodes : Nat
  play_time : Nat
  total_time : Nat
  source_name : String
  year : String
  introEndTime : Option Nat := none
  outroStartTime : Option Nat := none
deriving Repr, DecidableEq

/-- Per-title player settings from `PlayerSettingsManager`. -/
structure PlayerSettings where
  playbackRate : Option ℚ := none
  introEndTime : Option Nat := none
  outroStartTime : Option Nat := none
deriving Repr, DecidableEq

/-- The `updates` argument of `_savePlayRecord`: the only fields call sites
override.  `some v` overwrites the record's field with `v` (which may be
`none`, modelling an explicit `undefined`). -/
structure PlayRecordUpdates where
  introEndTime : Option (Option Nat) := none
  outroStartTime : Option (Option Nat) := none
deriving Repr, DecidableEq

/-- The buffering-escalation `setTimeout` armed at lines 622-678, together
with the data its closure captured at arming time: the tick timestamp `now`,
the detail-store `detail`, and the destructured `currentEpisodeIndex`. -/
structure BufferingTimer where
  armedNow : Nat
  armedDetail : Option SearchResult
  armedEpisodeIndex : Int
deriving Repr, DecidableEq

/-- One `_cachedSources` entry of the preload service (line 76). -/
structure CachedSource where
  url : String
  timestamp : Nat
  responseTime : Nat
deriving Repr, DecidableEq

/-- The error classification passed to `handleVideoError` (line 822). -/
inductive VideoErrorType where
  | ssl
  | network
  | other
deriving Repr, DecidableEq

/-- The combined mutable state of the player store, the detail store, the
storage collaborator and the user-visible toast counters.  Fields the
modelled operations never touch (modal visibility flags, `videoRef`,
`showControls`, `_seekTimeout`, `_preloadingEpisode`,
`_preloadTestAbortController`) are omitted.  Armed `setTimeout`s become
explicit data: `_bufferingTimeout` holds the pending buffering-escalation
callback, `_isRecordSaveThrottled` the pending throttle window. -/
structure SysState where
  currentEpisodeIndex : Int := -1
  episodes : List Episode := []
  status : Option AVPlaybackStatus := none
  isLoading : Bool := true
  showNextEpisodeOverlay : Bool := false
  initialPosition : Nat := 0
  progressPosition : ℚ := 0
  seekPosition : ℚ := 0
  playbackRate : ℚ := 1
  introEndTime : Option Nat := none
  outroStartTime : Option Nat := none
  isUserPaused : Bool := false
  _isRecordSaveThrottled : Bool := false
  _bufferingStartTime : Option Nat := none
  _bufferingRetryCount : Nat := 0
  _bufferingTimeout : Option BufferingTimer := none
  _lastSeekTime : Option Nat := none
  _cachedSources : List (String × CachedSource) := []
  detailSt : DetailState := {}
  playRecords : List ((String × String) × PlayRecord) := []
  playerSettingsStore : List ((String × String) × PlayerSettings) := []
  handleVideoErrorCount : Nat := 0
  exhaustedToastCount : Nat := 0
  switchSuccessToastCount : Nat := 0
deriving Repr, DecidableEq

/-- JS `arr[i]` for a possibly negative index: `undefined` out of bounds. -/
def listGetInt (l : List α) (i : Int) : Option α :=
  if i < 0 then none else l.get? i.toNat

/-- JS `a || b` over optional numbers, where `undefined` and `0` are falsy. -/
def jsOrOpt (a b : Option Nat) : Option Nat :=
  match a with
  | some x => if x ≠ 0 then some x else b
  | none => b

/-- JS `a || b` for an optional number against a number default. -/
def jsOrNat (a : Option Nat) (b : Nat) : Nat :=
  match a with
  | some x => if x ≠ 0 then x else b
  | none => b

/-- JS `a || b` over optional rationals (the playback rate). -/
def jsOrRat (a : Option ℚ) (b : ℚ) : ℚ :=
  match a with
  | some x => if x ≠ 0 then x else b
  | none => b

/-- The episode remapping `episodes.map((ep, index) => ({url, title}))` used
at lines 404-407 and 867-870. -/
def mapEpisodes (urls : List String) : List Episode :=
  urls.mapIdx fun index ep => { url := ep, title := "第 " ++ toString (index + 1) ++ " 集" }

/-- `errorReason` built at line 841 (`substring(0, 100)` is `String.take`). -/
def errorReasonString (errorType : VideoErrorType) (failedUrl : String) : String :=
  (match errorType with
    | .ssl => "ssl"
    | .network => "network"
    | .other => "other") ++ " error: " ++ failedUrl.take 100 ++ "..."

/-- `_savePlayRecord` (src/stores/playerStore.ts lines 551-583).  Without
`immediate`, a set throttle flag suppresses the save; otherwise the flag is
set (its 10-second expiry is the `saveThrottleExpires` event).  The record is
written keyed by `(detail.source, detail.id)` only when a detail exists and
the (pre-tick) status is loaded.  `detail.poster || ""` and
`detail.year || ""` are the identity on non-null strings and are modelled as
the field itself. -/
def savePlayRecordOp (st : SysState) (updates : PlayRecordUpdates)
    (immediate : Bool) : SysState :=
  if !immediate && st._isRecordSaveThrottled then st
  else
    let st := if !immediate then { st with _isRecordSaveThrottled := true } else st
    match st.detailSt.detail, st.status with
    | some detail, some (.loaded _ _ positionMillis durationMillis _) =>
      let base : PlayRecord :=
        { title := detail.title
          cover := detail.poster
          index := st.currentEpisodeIndex + 1
          total_episodes := st.episodes.length
          play_time := positionMillis / 1000
          total_time :=
            match durationMillis with
            | some d => if d ≠ 0 then d / 1000 else 0
            | none => 0
          source_name := detail.source_name
          year := detail.year
          introEndTime := st.introEndTime
          outroStartTime := st.outroStartTime }
      let record : PlayRecord :=
        { base with
          introEndTime := updates.introEndTime.getD base.introEndTime
          outroStartTime := updates.outroStartTime.getD base.outroStartTime }
      { st with
        playRecords :=
          ((detail.source, toString detail.id), record) :: st.playRecords }
    | _, _ => st

/-- `playEpisode` (src/stores/playerStore.ts lines 433-450), state part;
`replayAsync` acts on the media layer only. -/
def playEpisode (st : SysState) (index : Int) : SysState :=
  if 0 ≤ index ∧ index < (st.episodes.length : Int) then
    { st with
      currentEpisodeIndex := index
      showNextEpisodeOverlay := false
      initialPosition := 0
      progressPosition := 0
      seekPosition := 0 }
  else st

/-- `handleVideoError` (src/stores/playerStore.ts lines 822-895): record the
position, mark the current source failed, pick a fallback; with no fallback
show the all-sources-exhausted toast, otherwise switch `detail`, remap the
fallback's episodes, and restore the recorded position.  Toasts are modelled
as counters; `handleVideoErrorCount` counts invocations. -/
def handleVideoError (st : SysState) (errorType : VideoErrorType)
    (failedUrl : String) : SysState :=
  let st := { st with handleVideoErrorCount := st.handleVideoErrorCount + 1 }
  let currentPosition : Nat :=
    match st.status with
    | some (.loaded _ _ positionMillis _ _) =>
      if positionMillis ≠ 0 then positionMillis else 0
    | _ => 0
  match st.detailSt.detail with
  | none => { st with isLoading := false }
  | some detail =>
    let currentSource := detail.source
    let ds1 := markSourceAsFailed st.detailSt currentSource
      (errorReasonString errorType failedUrl)
    match getNextAvailableSource ds1 currentSource st.currentEpisodeIndex with
    | none =>
      { st with
        detailSt := ds1
        exhaustedToastCount := st.exhaustedToastCount + 1
        isLoading := false }
    | some fallbackSource =>
      let ds2 := setDetail ds1 fallbackSource
      let newEpisodes := fallbackSource.episodes
      if (newEpisodes.length : Int) > st.currentEpisodeIndex then
        { st with
          detailSt := ds2
          episodes := mapEpisodes newEpisodes
          initialPosition := currentPosition
          isLoading := false
          switchSuccessToastCount := st.switchSuccessToastCount + 1 }
      else
        { st with detailSt := ds2, isLoading := false }

/-- What the network returned for one probe fetch: a response accepted by the
code (`response.ok`, or 206 on the non-m3u8 path) with the measured
round-trip time, or any failure (HTTP error status, network error, or the
7-second `Preload timeout`).  A fetch is issued — and counted — in either
case. -/
inductive FetchOutcome where
  | ok (responseTime : Nat)
  | failure
deriving Repr, DecidableEq

/-- Result of one `_preloadAndTestSource` call: the usable/unusable verdict,
the state after it, and how many network fetches it issued. -/
structure PreloadResult where
  verdict : Bool
  st : SysState
  fetchesIssued : Nat
deriving Repr, DecidableEq

/-- `_preloadAndTestSource` (src/stores/playerStore.ts lines 111-216).  A
cached entry younger than 5 minutes short-circuits with the verdict
`responseTime < 3000` and no fetch.  Otherwise one fetch is issued: on the
m3u8 branch and the general branch alike, success caches
`{url, timestamp: now, responseTime}` and returns `responseTime < 4000`,
while any failure returns `false` *without writing the cache* (the catch at
lines 209-211).  Abort-controller bookkeeping has no effect on the modelled
state. -/
def preloadAndTestSource (st : SysState) (url : String) (now : Nat)
    (net : FetchOutcome) : PreloadResult :=
  match st._cachedSources.lookup url with
  | some cachedSource =>
    if now - cachedSource.timestamp < 5 * 60 * 1000 then
      { verdict := cachedSource.responseTime < 3000, st := st, fetchesIssued := 0 }
    else
      if strEndsWith url ".m3u8" then
        match net with
        | .ok responseTime =>
          { verdict := responseTime < 4000
            st := { st with _cachedSources :=
              (url, { url := url, timestamp := now, responseTime := responseTime })
                :: st._cachedSources }
            fetchesIssued := 1 }
        | .failure => { verdict := false, st := st, fetchesIssued := 1 }
      else
        match net with
        | .ok responseTime =>
          { verdict := responseTime < 4000
            st := { st with _cachedSources :=
              (url, { url := url, timestamp := now, responseTime := responseTime })
                :: st._cachedSources }
            fetchesIssued := 1 }
        | .failure => { verdict := false, st := st, fetchesIssued := 1 }
  | none =>
    if strEndsWith url ".m3u8" then
      match net with
      | .ok responseTime =>
        { verdict := responseTime < 4000
          st := { st with _cachedSources :=
            (url, { url := url, timestamp := now, responseTime := responseTime })
              :: st._cachedSources }
          fetchesIssued := 1 }
      | .failure => { verdict := false, st := st, fetchesIssued := 1 }
    else
      match net with
      | .ok responseTime =>
        { verdict := responseTime < 4000
          st := { st with _cachedSources :=
            (url, { url := url, timestamp := now, responseTime := responseTime })
              :: st._cachedSources }
          fetchesIssued := 1 }
      | .failure => { verdict := false, st := st, fetchesIssued := 1 }

/-- The storage-restore tail of `loadVideo` (src/stores/playerStore.ts lines
387-419): read the play record and settings keyed by the resolved detail
`d`, compute the resume position (`position || playRecord.play_time * 1000`,
with JS truthiness), remap the episode URLs, and write the player fields. -/
def loadVideoRestore (st : SysState) (d : SearchResult) (position : Option Nat)
    (episodeIndex : Int) (episodes : List String) : SysState :=
  let playRecord := st.playRecords.lookup (d.source, toString d.id)
  let playerSettings := st.playerSettingsStore.lookup (d.source, toString d.id)
  let initialPositionFromRecord : Nat :=
    match playRecord with
    | some r => if r.play_time ≠ 0 then r.play_time * 1000 else 0
    | none => 0
  let savedPlaybackRate := jsOrRat (playerSettings.bind (·.playbackRate)) 1
  let mappedEpisodes := mapEpisodes episodes
  { st with
    isLoading := false
    currentEpisodeIndex := episodeIndex
    initialPosition := jsOrNat position initialPositionFromRecord
    playbackRate := savedPlaybackRate
    episodes := mappedEpisodes
    introEndTime :=
      jsOrOpt (playRecord.bind (·.introEndTime))
        (playerSettings.bind (·.introEndTime))
    outroStartTime :=
      jsOrOpt (playRecord.bind (·.outroStartTime))
        (playerSettings.bind (·.outroStartTime)) }

/-- The preload-and-fallback step of `loadVideo` (src/stores/playerStore.ts
lines 324-362), for a call where the local variables `detail = d` and
`episodes` are already resolved and `episodes` has the requested index.
`preloadOk` gives each `_preloadAndTestSource` verdict.  Returns the state
together with the (possibly reassigned) local `detail` and `episodes`.  Note
the source reassigns `detail = fallbackSource` *before* executing
`markSourceAsFailed(detail.source, 'preload_failed')`, so the marked source
is the fallback's, not the original's, although the adjacent comment says
"标记原始源为失败" (mark the original source as failed).  The asynchronous
next-episode preload (lines 364-376) has no effect on the modelled state. -/
def loadVideoPreloadFallback (st : SysState) (d : SearchResult)
    (episodes : List String) (episodeIndex : Nat) (preloadOk : String → Bool) :
    SysState × SearchResult × List String :=
  if h : episodes.length > episodeIndex then
    let episodeUrl := episodes.get ⟨episodeIndex, h⟩
    if preloadOk episodeUrl then (st, d, episodes)
    else
      match getNextAvailableSource st.detailSt d.source episodeIndex with
      | some fallbackSource =>
        if h2 : episodeIndex < fallbackSource.episodes.length then
          let fallbackUrl := fallbackSource.episodes.get ⟨episodeIndex, h2⟩
          if preloadOk fallbackUrl then
            let ds1 := setDetail st.detailSt fallbackSource
            let ds2 := markSourceAsFailed ds1 fallbackSource.source "preload_failed"
            ({ st with detailSt := ds2 }, fallbackSource, fallbackSource.episodes)
          else (st, d, episodes)
        else (st, d, episodes)
      | none => (st, d, episodes)
  else (st, d, episodes)

/-- The buffering-detection section of `handlePlaybackStatusUpdate` for a
loaded status (src/stores/playerStore.ts lines 590-693): clear the
user-pause flag when playing, decide `isBuffering` from the tick, and either
arm the 20-second escalation timeout at buffering onset or clear the
bookkeeping when buffering stops.  The armed timeout captures `now`, the
detail-store `detail` and the destructured `currentEpisodeIndex`. -/
def detectBuffering (st : SysState) (isPlaying isBufferingFlag : Bool)
    (positionMillis : Nat) (durationMillis : Option Nat) (now : Nat) : SysState :=
  let detail := st.detailSt.detail
  let stA :=
    if isPlaying && st.isUserPaused then { st with isUserPaused := false } else st
  let isRecentlySeeked : Bool :=
    match st._lastSeekTime with
    | some t => decide ((now : Int) - (t : Int) < 10000)
    | none => false
  let isBuffering :=
    !isPlaying && !st.isUserPaused && !isRecentlySeeked &&
      decide (positionMillis > 0) && decide (durationMillis.getD 0 > 0) &&
      isBufferingFlag
  if isBuffering then
    if stA._bufferingStartTime.isSome then stA
    else
      { stA with
        _bufferingStartTime := some now
        _bufferingRetryCount := 0
        _bufferingTimeout := some
          { armedNow := now
            armedDetail := detail
            armedEpisodeIndex := st.currentEpisodeIndex } }
  else
    let stB :=
      if stA._bufferingStartTime.isSome then
        { stA with _bufferingStartTime := none, _bufferingRetryCount := 0 }
      else stA
    if stB._bufferingTimeout.isSome then { stB with _bufferingTimeout := none }
    else stB

/-- The buffering-escalation timeout callback firing (src/stores/
playerStore.ts lines 622-676).  It re-reads the store, but `now` and
`detail` are the values captured at arming (so `stillRecentlySeeked`
compares the *arming-time* clock against the last seek).  With all guards
satisfied it increments `_bufferingRetryCount` and branches on its *old*
value: 0 → a 5-second rewind through the media layer (no store change
beyond the count; `setPositionAsync` does not touch `_lastSeekTime`),
1 → nothing further, ≥ 2 → `handleVideoError('network', url)`. -/
def fireBufferingTimeout (st : SysState) : SysState :=
  match st._bufferingTimeout with
  | none => st
  | some timer =>
    let st := { st with _bufferingTimeout := none }
    let stillRecentlySeeked : Bool :=
      match st._lastSeekTime with
      | some t => decide ((timer.armedNow : Int) - (t : Int) < 15000)
      | none => false
    match st.status with
    | some (.loaded isPlaying isBufferingFlag positionMillis _ _) =>
      if !isPlaying && !st.isUserPaused && !stillRecentlySeeked &&
          decide (positionMillis > 0) && isBufferingFlag &&
          timer.armedDetail.isSome && decide (st._bufferingRetryCount < 3) then
        let st1 := { st with _bufferingRetryCount := st._bufferingRetryCount + 1 }
        match listGetInt st1.episodes timer.armedEpisodeIndex with
        | some currentEpisode =>
          if st._bufferingRetryCount == 0 then st1
          else if st._bufferingRetryCount == 1 then st1
          else handleVideoError st1 .network currentEpisode.url
        | none => st1
      else st
    | _ => st

/-- `handlePlaybackStatusUpdate` (src/stores/playerStore.ts lines 585-746).
For an unloaded status: clear the buffering bookkeeping, run failover on an
error when a current episode and a detail exist, and store the status.  For
a loaded status: run buffering detection, then the outro auto-advance (an
early return), then the throttled record save and next-episode overlay, then
the finished auto-advance, then store the status and progress ratio.
Conditions read the destructured pre-tick snapshot (`st`), state updates
thread through, exactly as the source's `get()`/`set` pairs do. -/
def handlePlaybackStatusUpdate (st : SysState) (newStatus : AVPlaybackStatus)
    (now : Nat) : SysState :=
  match newStatus with
  | .notLoaded error =>
    let st1 := { st with _bufferingTimeout := none, _bufferingStartTime := none }
    let st2 :=
      match error with
      | some _ =>
        match listGetInt st1.episodes st1.currentEpisodeIndex,
            st1.detailSt.detail with
        | some currentEpisode, some _ =>
          handleVideoError st1 .other currentEpisode.url
        | _, _ => st1
      | none => st1
    { st2 with status := some newStatus }
  | .loaded isPlaying isBufferingFlag positionMillis durationMillis didJustFinish =>
    let st1 := detectBuffering st isPlaying isBufferingFlag positionMillis
      durationMillis now
    let outroReached : Bool :=
      match st.outroStartTime, durationMillis with
      | some outro, some duration =>
        outro != 0 && duration != 0 &&
          decide ((positionMillis : Int) ≥ (duration : Int) - (outro : Int))
      | _, _ => false
    if outroReached &&
        decide (st.currentEpisodeIndex < (st.episodes.length : Int) - 1) then
      playEpisode st1 (st.currentEpisodeIndex + 1)
    else
      let st2 :=
        match st.detailSt.detail, durationMillis with
        | some _, some duration =>
          if duration ≠ 0 then
            let stS := savePlayRecordOp st1 {} false
            -- `positionMillis / durationMillis > 0.95`, cross-multiplied
            -- (duration ≠ 0 in this branch, so the forms agree)
            let isNearEnd : Bool :=
              decide (100 * positionMillis > 95 * duration)
            if isNearEnd &&
                decide (st.currentEpisodeIndex < (st.episodes.length : Int) - 1) &&
                !(match st.outroStartTime with
                  | some o => o != 0
                  | none => false) then
              { stS with showNextEpisodeOverlay := true }
            else { stS with showNextEpisodeOverlay := false }
          else st1
        | _, _ => st1
      let st3 :=
        if didJustFinish &&
            decide (st.currentEpisodeIndex < (st.episodes.length : Int) - 1) then
          playEpisode st2 (st.currentEpisodeIndex + 1)
        else st2
      let progressPosition : ℚ :=
        match durationMillis with
        | some duration =>
          if duration ≠ 0 then (positionMillis : ℚ) / (duration : ℚ) else 0
        | none => 0
      { st3 with status := some newStatus, progressPosition := progressPosition }

/-- One event of the single-threaded event loop: a media status tick (with
the `Date.now()` it observes), the buffering-escalation timeout firing, or
the 10-second save-throttle window expiring. -/
inductive SimEvent where
  | status (newStatus : AVPlaybackStatus) (now : Nat)
  | bufferingTimeoutFires
  | saveThrottleExpires
deriving Repr, DecidableEq

/-- Interpretation of one event. -/
def stepEvent (st : SysState) : SimEvent → SysState
  | .status newStatus now => handlePlaybackStatusUpdate st newStatus now
  | .bufferingTimeoutFires => fireBufferingTimeout st
  | .saveThrottleExpires => { st with _isRecordSaveThrottled := false }

/-- Run a sequence of events. -/
def runEvents (st : SysState) (evs : List SimEvent) : SysState :=
  evs.foldl stepEvent st

/-- Is the event a loaded status tick, a timer firing, or a throttle expiry
(everything the buffering-escalation scenario of the spec consists of)? -/
def isLoadedTickOrTimer : SimEvent → Bool
  | .status (.loaded _ _ _ _ _) _ => true
  | .status (.notLoaded _) _ => false
  | .bufferingTimeoutFires => true
  | .saveThrottleExpires => true

/-- `selectCurrentEpisode` (src/stores/playerStore.ts lines 900-926). -/
def selectCurrentEpisode (st : SysState) : Option Episode :=
  if st.episodes.length > 0 ∧ st.currentEpisodeIndex ≥ 0 ∧
      st.currentEpisodeIndex < (st.episodes.length : Int) then
    match listGetInt st.episodes st.currentEpisodeIndex with
    | some episode =>
      if episode.url ≠ "" ∧ strTrim episode.url ≠ "" then some episode else none
    | none => none
  else none

/-!  Definitions written from the spec's words (not from the source), used
only to compare the spec's claimed behaviour against the code's. -/

/-- Modelled from the spec: the claimed latency bucket
`{<300ms:0, <600ms:1, <1000ms:2, <2000ms:3, else/unmeasured:3}` — every
case outside the listed ranges, measured or not, maps to 3. -/
def latencyBucketClaimed (speed : Option Nat) : Nat :=
  match speed with
  | none => 3
  | some s =>
    if s < 300 then 0
    else if s < 600 then 1
    else if s < 1000 then 2
    else 3

/-- Modelled from the spec: the claimed resolution tier
`{1080p:4, 720p:3, 480p:2, 360p:1, other/unknown:0}`. -/
def resolutionTierClaimed (res : Option String) : Nat :=
  match res with
  | some r =>
    if r = "1080p" then 4
    else if r = "720p" then 3
    else if r = "480p" then 2
    else if r = "360p" then 1
    else 0
  | none => 0

/-- Modelled from the spec: the claimed composite score
`0.6 * resolutionTier + 0.4 * (4 - latencyBucket)` read as exact
arithmetic, in an exact 10-fold integer scaling (every claimed score is a
multiple of 1/5). -/
def totalScoreClaimed (r : SearchResult) : Nat :=
  6 * resolutionTierClaimed r.resolution
    + 4 * (4 - latencyBucketClaimed r.networkSpeed)

/-- Modelled from the spec: `selectFallback` as the claim states it — the
filtered candidate with the highest claimed score, ties broken by original
discovery order. -/
def selectFallbackClaimed (st : DetailState) (currentSource : String)
    (episodeIndex : Int) : Option SearchResult :=
  firstMaxBy totalScoreClaimed (availableSources st currentSource episodeIndex)

/-- The invariant the buffering machinery maintains: whenever the 20-second
escalation timeout is armed, the retry counter is 0 (arming always resets
it). -/
def BufferingInv (st : SysState) : Prop :=
  st._bufferingTimeout.isSome = true → st._bufferingRetryCount = 0

/-!  Concrete instances used by counterexamples and witnesses. -/

/-- A 1080p candidate with a measured 2500ms latency. -/
def c3a : SearchResult :=
  { source := "s1", source_name := "S1", id := 1, title := "T", poster := ""
    year := "", episodes := ["u1"], resolution := some "1080p"
    networkSpeed := some 2500 }

/-- A 1080p candidate whose latency was never measured. -/
def c3b : SearchResult :=
  { source := "s2", source_name := "S2", id := 2, title := "T", poster := ""
    year := "", episodes := ["u2"], resolution := some "1080p"
    networkSpeed := none }

/-- Detail-store state holding the two candidates above in discovery order. -/
def st3 : DetailState := { searchResults := [c3a, c3b] }

/-- The spec's preference example: 1080p with 250ms latency. -/
def exHi : SearchResult :=
  { source := "hi", source_name := "Hi", id := 1, title := "T", poster := ""
    year := "", episodes := ["u1"], resolution := some "1080p"
    networkSpeed := some 250 }

/-- The spec's preference example: 720p with 100ms latency. -/
def exLo : SearchResult :=
  { source := "lo", source_name := "Lo", id := 2, title := "T", poster := ""
    year := "", episodes := ["u2"], resolution := some "720p"
    networkSpeed := some 100 }

/-- Detail-store state with the 720p candidate discovered first. -/
def stPref : DetailState := { searchResults := [exLo, exHi] }

/-- Exact-score tie, split by float noise: 360p with 250ms latency
(tier 1, bucket 0, exact score 22/10, double key 39631676720860368). -/
def tX : SearchResult :=
  { source := "tx", source_name := "TX", id := 1, title := "T", poster := ""
    year := "", episodes := ["u1"], resolution := some "360p"
    networkSpeed := some 250 }

/-- Exact-score tie, split by float noise: 720p with 1500ms latency
(tier 3, bucket 3, exact score 22/10, double key 39631676720860360). -/
def tY : SearchResult :=
  { source := "ty", source_name := "TY", id := 2, title := "T", poster := ""
    year := "", episodes := ["u2"], resolution := some "720p"
    networkSpeed := some 1500 }

/-- Detail-store state with the 720p/1500ms candidate discovered first; the
two candidates' claimed buckets agree with the code's, their exact scores
tie, and only the binary64 rounding separates them. -/
def stTie : DetailState := { searchResults := [tY, tX] }

/-- 480p with a measured 2500ms latency (tier 2, bucket 4, double 1.2). -/
def fA : SearchResult :=
  { source := "fa", source_name := "FA", id := 1, title := "T", poster := ""
    year := "", episodes := ["u1"], resolution := some "480p"
    networkSpeed := some 2500 }

/-- Unknown resolution with 400ms latency (tier 0, bucket 1, double
1.2000000000000002). -/
def fB : SearchResult :=
  { source := "fb", source_name := "FB", id := 2, title := "T", poster := ""
    year := "", episodes := ["u2"], resolution := none
    networkSpeed := some 400 }

/-- Detail-store state with the 480p/2500ms candidate discovered first. -/
def stFloatTie : DetailState := { searchResults := [fA, fB] }

/-- Source "a" with one episode. -/
def srcA : SearchResult :=
  { source := "a", source_name := "A", id := 1, title := "T", poster := ""
    year := "", episodes := ["http://a/1.m3u8"] }

/-- Source "b" with one episode (an available fallback). -/
def srcB : SearchResult :=
  { source := "b", source_name := "B", id := 2, title := "T", poster := ""
    year := "", episodes := ["http://b/1.m3u8"] }

/-- A mid-playback state: episode 0 of source "a" playing at 30s of 100s,
with source "b" available as fallback. -/
def bst : SysState :=
  { currentEpisodeIndex := 0
    episodes := [{ url := "http://a/1.m3u8", title := "第 1 集" }]
    status := some (.loaded true false 30000 (some 100000) false)
    isLoading := false
    detailSt := { searchResults := [srcA, srcB], detail := some srcA } }

/-- A status tick that is loaded, not playing, buffering, at position 30s of
a known 100s duration. -/
def bufS : AVPlaybackStatus := .loaded false true 30000 (some 100000) false

/-- Status ticks staying in that buffering state from t=1s past t=21s (the
armed timeout fires 20 seconds after the t=1s onset), with no seek and no
user pause throughout. -/
def traceC1 : List SimEvent :=
  [.status bufS 1000, .status bufS 11000, .status bufS 20000,
   .bufferingTimeoutFires, .status bufS 21500, .status bufS 25000]

/-- A buffering state whose detail store knows no source other than the
current one, so failover finds no candidate. -/
def cst4 : SysState :=
  { currentEpisodeIndex := 0
    episodes := [{ url := "http://a/1.m3u8", title := "第 1 集" }]
    status := some (.loaded false true 30000 (some 100000) false)
    isLoading := false
    detailSt := { searchResults := [srcA], detail := some srcA } }

/-- Source "A" whose single episode URL "a1" will fail its preload probe. -/
def sA : SearchResult :=
  { source := "A", source_name := "SA", id := 1, title := "T", poster := ""
    year := "", episodes := ["a1"] }

/-- Source "B" whose single episode URL "b1" passes its preload probe. -/
def sB : SearchResult :=
  { source := "B", source_name := "SB", id := 2, title := "T", poster := ""
    year := "", episodes := ["b1"] }

/-- State entering `loadVideo`'s preload step with detail "A" and fallback
"B" available. -/
def st6 : SysState := { detailSt := { searchResults := [sA, sB], detail := some sA } }

/-- The detail used by the play-record round-trip instances. -/
def d8 : SearchResult :=
  { source := "A", source_name := "SA", id := 7, title := "T", poster := "p"
    year := "2020", episodes := ["a1"] }

/-- A playback state at position 1500ms with intro/outro markers set. -/
def cst8 : SysState :=
  { currentEpisodeIndex := 0
    episodes := [{ url := "a1", title := "第 1 集" }]
    status := some (.loaded true false 1500 (some 90000) false)
    introEndTime := some 90
    outroStartTime := some 120
    detailSt := { searchResults := [d8], detail := some d8 } }

/-- First of two incoming search results sharing the source id "dup". -/
def m1 : SearchResult :=
  { source := "dup", source_name := "D1", id := 1, title := "X", poster := ""
    year := "", episodes := ["e1"] }

/-- Second incoming search result with the same source id "dup". -/
def m2 : SearchResult :=
  { source := "dup", source_name := "D2", id := 2, title := "Y", poster := ""
    year := "", episodes := ["e2"] }

/-! Helper lemmas about the stable descending sort. -/

theorem mem_insertByScoreDesc {z x : SearchResult} {l : List SearchResult} :
    z ∈ insertByScoreDesc x l ↔ z = x ∨ z ∈ l := by
  induction l with
  | nil => simp [insertByScoreDesc]
  | cons y ys ih =>
    by_cases h : totalScore x ≥ totalScore y
    · simp [insertByScoreDesc, h]
    · simp only [insertByScoreDesc, if_neg h, List.mem_cons, ih]
      tauto

theorem insertByScoreDesc_ne_nil (x : SearchResult) (l : List SearchResult) :
    insertByScoreDesc x l ≠ [] := by
  cases l with
  | nil => simp [insertByScoreDesc]
  | cons y ys =>
    by_cases h : totalScore x ≥ totalScore y <;> simp [insertByScoreDesc, h]

theorem mem_sortByScoreDesc {z : SearchResult} {l : List SearchResult} :
    z ∈ sortByScoreDesc l → z ∈ l := by
  induction l with
  | nil => simp [sortByScoreDesc]
  | cons x xs ih =>
    intro h
    rcases mem_insertByScoreDesc.mp h with h' | h'
    · simp [h']
    · exact List.mem_cons_of_mem _ (ih h')

theorem sortByScoreDesc_eq_nil_iff {l : List SearchResult} :
    sortByScoreDesc l = [] ↔ l = [] := by
  cases l with
  | nil => simp [sortByScoreDesc]
  | cons x xs => simp [sortByScoreDesc, insertByScoreDesc_ne_nil]

theorem firstMaxBy_eq_none_iff {f : SearchResult → Nat} {l : List SearchResult} :
    firstMaxBy f l = none ↔ l = [] := by
  cases l with
  | nil => simp [firstMaxBy]
  | cons x xs =>
    simp only [firstMaxBy]
    cases h : firstMaxBy f xs with
    | none => simp
    | some y =>
      by_cases hgt : f y > f x <;> simp [hgt]

theorem head?_sortByScoreDesc (l : List SearchResult) :
    (sortByScoreDesc l).head? = firstMaxBy totalScore l := by
  induction l with
  | nil => rfl
  | cons x xs ih =>
    simp only [sortByScoreDesc, firstMaxBy, ← ih]
    cases h : sortByScoreDesc xs with
    | nil => simp [insertByScoreDesc]
    | cons y ys =>
      by_cases hge : totalScore x ≥ totalScore y
      · simp [insertByScoreDesc, hge, not_lt.mpr hge]
      · simp [insertByScoreDesc, hge, lt_of_not_ge hge]

theorem firstMaxBy_spec {f : SearchResult → Nat} {l : List SearchResult}
    {c : SearchResult} (h : firstMaxBy f l = some c) :
    ∃ l1 l2, l = l1 ++ c :: l2 ∧ (∀ r ∈ l, f r ≤ f c) ∧ ∀ r ∈ l1, f r < f c := by
  induction l generalizing c with
  | nil => simp [firstMaxBy] at h
  | cons x xs ih =>
    simp only [firstMaxBy] at h
    cases hx : firstMaxBy f xs with
    | none =>
      rw [hx] at h
      obtain rfl : x = c := by simpa using h
      have : xs = [] := firstMaxBy_eq_none_iff.mp hx
      subst this
      exact ⟨[], [], rfl, by simp, by simp⟩
    | some y =>
      rw [hx] at h
      by_cases hgt : f y > f x
      · simp only [hgt, if_true] at h
        obtain rfl : y = c := Option.some.inj h
        obtain ⟨l1, l2, hsplit, hmax, hstrict⟩ := ih hx
        refine ⟨x :: l1, l2, by simp [hsplit], ?_, ?_⟩
        · intro r hr
          rcases List.mem_cons.mp hr with rfl | hr
          · exact le_of_lt hgt
          · exact hmax r hr
        · intro r hr
          rcases List.mem_cons.mp hr with rfl | hr
          · exact hgt
          · exact hstrict r hr
      · simp only [hgt, if_false] at h
        obtain rfl : x = c := Option.some.inj h
        obtain ⟨l1, l2, hsplit, hmax, hstrict⟩ := ih hx
        refine ⟨[], xs, rfl, ?_, by simp⟩
        intro r hr
        rcases List.mem_cons.mp hr with rfl | hr
        · exact le_refl _
        · exact le_trans (hmax r hr) (not_lt.mp hgt)

/-- Membership and the filter predicate of `availableSources`. -/
theorem mem_availableSources {st : DetailState} {cur : String} {idx : Int}
    {r : SearchResult} :
    r ∈ availableSources st cur idx ↔
      r ∈ st.searchResults ∧ r.source ≠ cur ∧ r.source ∉ st.failedSources ∧
        (r.episodes.length : Int) > idx := by
  have hcontains : st.failedSources.contains r.source = false ↔
      r.source ∉ st.failedSources := by
    rw [← @List.elem_iff _ _ _ r.source st.failedSources]
    simp [List.contains]
  simp only [availableSources, List.mem_filter, Bool.and_eq_true,
    decide_eq_true_eq, Bool.not_eq_true', hcontains]
  tauto

/-- C2: every candidate returned by `getNextAvailableSource` differs from the
current source, is not in the failed set, and has an episode at the requested
index; and the call returns `none` exactly when no search result satisfies
all three filter conditions. -/
theorem getNextAvailableSource_filter_spec (st : DetailState) (cur : String)
    (idx : Int) :
    (∀ c, getNextAvailableSource st cur idx = some c →
      c.source ≠ cur ∧ c.source ∉ st.failedSources ∧
        (c.episodes.length : Int) > idx ∧ c ∈ st.searchResults) ∧
    (getNextAvailableSource st cur idx = none ↔
      ∀ r ∈ st.searchResults,
        ¬(r.source ≠ cur ∧ r.source ∉ st.failedSources ∧
          (r.episodes.length : Int) > idx)) := by
  constructor
  · intro c h
    unfold getNextAvailableSource at h
    by_cases he : (availableSources st cur idx).isEmpty
    · simp [he] at h
    · rw [if_neg he] at h
      have hc : c ∈ sortByScoreDesc (availableSources st cur idx) := by
        cases hs : sortByScoreDesc (availableSources st cur idx) with
        | nil => simp [hs] at h
        | cons b t =>
          rw [hs] at h
          simp only [List.head?] at h
          obtain rfl : b = c := by simpa using h
          simp
      have := mem_availableSources.mp (mem_sortByScoreDesc hc)
      tauto
  · unfold getNextAvailableSource
    by_cases he : (availableSources st cur idx).isEmpty
    · simp only [he, if_pos, if_true]
      have hnil : availableSources st cur idx = [] := by
        simpa [List.isEmpty_iff] using he
      constructor
      · intro _ r hr hcond
        have : r ∈ availableSources st cur idx :=
          mem_availableSources.mpr ⟨hr, hcond⟩
        simp [hnil] at this
      · intro _
        trivial
    · rw [if_neg he]
      have hne : availableSources st cur idx ≠ [] := by
        simpa [List.isEmpty_iff] using he
      obtain ⟨r0, hr0⟩ := List.exists_mem_of_ne_nil _ hne
      have hsne : sortByScoreDesc (availableSources st cur idx) ≠ [] := by
        intro hcontra
        exact hne (sortByScoreDesc_eq_nil_iff.mp hcontra)
      constructor
      · intro hnone
        cases hs : sortByScoreDesc (availableSources st cur idx) with
        | nil => exact absurd hs hsne
        | cons b t => simp [hs] at hnone
      · intro hall
        have := mem_availableSources.mp hr0
        exact absurd ⟨this.2.1, this.2.2.1, this.2.2.2⟩ (hall r0 this.1)

/-- Closed instance of the C2 theorem: on `st3` the returned candidate `c3b`
satisfies all three filter conditions. -/
theorem getNextAvailableSource_filter_spec_witness :
    c3b.source ≠ "cur" ∧ c3b.source ∉ st3.failedSources ∧
      (c3b.episodes.length : Int) > 0 ∧ c3b ∈ st3.searchResults :=
  (getNextAvailableSource_filter_spec st3 "cur" 0).1 c3b (by decide)

/-- C3 counterexample, two independent failures.  Bucket: the claim sends
every measured latency of 2000ms or more to 3, the code to 4, so on the two
1080p candidates `c3a` (2500ms, discovered first) and `c3b` (unmeasured)
the claim predicts a tie resolved to `c3a` while the code returns `c3b`.
Tie-break: the comparator works in binary64, so the exact-score tie between
`tY` (720p/1500ms, 3*0.6 + 1*0.4, discovered first) and `tX` (360p/250ms,
1*0.6 + 4*0.4) — on which the claimed and actual buckets agree — is not a
comparator tie: the doubles give 2.1999999999999997 against 2.2, the code
picks `tX`, and the claimed discovery-order tie-break picks `tY`. -/
theorem sourceScoring_counterexample :
    (getNextAvailableSource st3 "cur" 0 = some c3b ∧
      selectFallbackClaimed st3 "cur" 0 = some c3a ∧ c3a ≠ c3b) ∧
    (getNextAvailableSource stTie "cur" 0 = some tX ∧
      selectFallbackClaimed stTie "cur" 0 = some tY ∧ tY ≠ tX) := by
  refine ⟨⟨by decide, by decide, by decide⟩, ⟨by decide, by decide, by decide⟩⟩

/-- C3 (amended: a measured latency of 2000ms or more maps to bucket 4 and
only an unmeasured latency to 3; and the score is the IEEE-binary64
evaluation of `0.6 * resolutionTier + 0.4 * (4 - latencyBucket)`, so two
candidates whose scores tie in exact arithmetic but round differently —
such as tier 2/bucket 4 giving 1.2 versus tier 0/bucket 1 giving
1.2000000000000002 — are ordered by the double values, and only candidates
with identical double scores keep original discovery order):
`getNextAvailableSource` returns the filtered candidate with the highest
double score (`totalScore`), earliest on double ties; in particular the
1080p/250ms candidate is preferred over the 720p/100ms one, and the
unknown-resolution/400ms candidate `fB` beats the 480p/2500ms candidate
`fA` discovered before it on float noise alone. -/
theorem sourceScoring_amended :
    (∀ st cur idx c, getNextAvailableSource st cur idx = some c →
      ∃ l1 l2,
        availableSources st cur idx = l1 ++ c :: l2 ∧
        (∀ r ∈ availableSources st cur idx, totalScore r ≤ totalScore c) ∧
        (∀ r ∈ l1, totalScore r < totalScore c)) ∧
    getNextAvailableSource stPref "cur" 0 = some exHi ∧
    getNextAvailableSource stFloatTie "cur" 0 = some fB := by
  refine ⟨?_, by decide, by decide⟩
  intro st cur idx c h
  unfold getNextAvailableSource at h
  by_cases he : (availableSources st cur idx).isEmpty
  · simp [he] at h
  · rw [if_neg he, head?_sortByScoreDesc] at h
    exact firstMaxBy_spec h

/-- Closed instance of the amended C3 theorem: the selected candidate on
`st3` is a score maximum of the filtered list. -/
theorem sourceScoring_amended_witness :
    ∃ l1 l2,
      availableSources st3 "cur" 0 = l1 ++ c3b :: l2 ∧
      (∀ r ∈ availableSources st3 "cur" 0, totalScore r ≤ totalScore c3b) ∧
      (∀ r ∈ l1, totalScore r < totalScore c3b) :=
  sourceScoring_amended.1 st3 "cur" 0 c3b (by decide)

/-- Attaching a resolution never changes a result's source id. -/
theorem attachResolution_source (resolve : String → Option String)
    (r : SearchResult) : (attachResolution resolve r).source = r.source := rfl

/-- C9 counterexample: two results from the same batch sharing the source id
"dup" are both kept — the merge deduplicates only against previously present
sources, not within the incoming batch. -/
theorem mergeDuplicateSource_counterexample :
    ((processAndSetResults {} (fun _ => none) [m1, m2] true).searchResults.map
      (·.source)) = ["dup", "dup"] ∧
    ¬(((processAndSetResults {} (fun _ => none) [m1, m2] true).searchResults.map
      (·.source)).Nodup) := by
  refine ⟨by decide, by decide⟩

/-- C9 (amended: provided each single batch passed to `processAndSetResults`
has pairwise-distinct source values — deduplication within one batch is not
performed): merging preserves distinctness of source values, because an
incoming result whose source is already present is filtered out. -/
theorem processAndSetResults_nodup_amended (st : DetailState)
    (resolve : String → Option String) (results : List SearchResult)
    (merge : Bool)
    (h1 : (st.searchResults.map (·.source)).Nodup)
    (h2 : (results.map (·.source)).Nodup) :
    (((processAndSetResults st resolve results merge).searchResults).map
      (·.source)).Nodup := by
  have hmapped :
      ((results.map (attachResolution resolve)).map (·.source)) =
        results.map (·.source) := by
    rw [List.map_map]
    rfl
  unfold processAndSetResults
  cases merge with
  | false =>
    simpa [hmapped] using h2
  | true =>
    simp only [if_true]
    rw [List.map_append, List.nodup_append]
    set p : SearchResult → Bool :=
      fun r => !((st.searchResults.map (·.source)).contains r.source) with hp
    have hsub :
        (((results.map (attachResolution resolve)).filter p).map (·.source)).Sublist
          ((results.map (attachResolution resolve)).map (·.source)) :=
      (List.filter_sublist _).map _
    refine ⟨h1, ?_, ?_⟩
    · exact (hmapped ▸ hsub).nodup h2
    · intro s hs hs'
      obtain ⟨r, hr, rfl⟩ := List.mem_map.mp hs'
      have hpr := (List.mem_filter.mp hr).2
      rw [hp] at hpr
      simp only [Bool.not_eq_true'] at hpr
      have : r.source ∈ st.searchResults.map (·.source) := hs
      rw [← @List.elem_iff _ _ _ r.source (st.searchResults.map (·.source))] at this
      simp only [List.contains] at hpr
      rw [hpr] at this
      exact Bool.false_ne_true this

/-- Closed instance of the amended C9 theorem: merging two distinct-source
batches keeps the source ids duplicate-free. -/
theorem processAndSetResults_nodup_amended_witness :
    (((processAndSetResults { searchResults := [m1] } (fun _ => none) [c3a, c3b]
      true).searchResults).map (·.source)).Nodup :=
  processAndSetResults_nodup_amended { searchResults := [m1] } (fun _ => none)
    [c3a, c3b] true (by decide) (by decide)

/-- C10: `selectCurrentEpisode` returns the episode at `currentEpisodeIndex`
exactly when the episode list is non-empty, the index is in bounds, and that
episode's url is non-empty and does not trim to the empty string; in every
other state it
returns `undefined`. -/
theorem selectCurrentEpisode_spec (st : SysState) (ep : Episode) :
    selectCurrentEpisode st = some ep ↔
      st.episodes ≠ [] ∧ 0 ≤ st.currentEpisodeIndex ∧
        st.currentEpisodeIndex < (st.episodes.length : Int) ∧
        listGetInt st.episodes st.currentEpisodeIndex = some ep ∧
        ep.url ≠ "" ∧ strTrim ep.url ≠ "" := by
  unfold selectCurrentEpisode
  by_cases hc : st.episodes.length > 0 ∧ st.currentEpisodeIndex ≥ 0 ∧
      st.currentEpisodeIndex < (st.episodes.length : Int)
  · rw [if_pos hc]
    have hne : st.episodes ≠ [] := by
      intro hnil
      rw [hnil] at hc
      simp at hc
    cases hget : listGetInt st.episodes st.currentEpisodeIndex with
    | none =>
      simp only [hget]
      constructor
      · intro h
        exact absurd h (by simp)
      · rintro ⟨-, -, -, habs, -⟩
        simp at habs
    | some e =>
      simp only [hget]
      by_cases hu : e.url ≠ "" ∧ strTrim e.url ≠ ""
      · rw [if_pos hu]
        constructor
        · intro h
          obtain rfl : e = ep := Option.some.inj h
          exact ⟨hne, hc.2.1, hc.2.2, rfl, hu.1, hu.2⟩
        · rintro ⟨-, -, -, heq, -, -⟩
          obtain rfl : e = ep := Option.some.inj heq
          rfl
      · rw [if_neg hu]
        constructor
        · intro h
          exact absurd h (by simp)
        · rintro ⟨-, -, -, heq, hu1, hu2⟩
          obtain rfl : e = ep := Option.some.inj heq
          exact absurd ⟨hu1, hu2⟩ hu
  · rw [if_neg hc]
    constructor
    · intro h
      exact absurd h (by simp)
    · rintro ⟨hne, hge, hlt, -, -⟩
      refine absurd ⟨?_, hge, hlt⟩ hc
      cases he : st.episodes with
      | nil => exact absurd he hne
      | cons a t => simp [he]

/-- Closed instance of the C10 theorem: on `bst` the current episode is
returned. -/
theorem selectCurrentEpisode_spec_witness :
    selectCurrentEpisode bst = some { url := "http://a/1.m3u8", title := "第 1 集" } :=
  (selectCurrentEpisode_spec bst { url := "http://a/1.m3u8", title := "第 1 集" }).mpr
    (by refine ⟨by decide, by decide, by decide, by decide, by decide, by decide⟩)

/-- C4 counterexample: with no fallback available, every invocation of
`handleVideoError` shows the all-sources-exhausted toast again — two
invocations on the same stuck state surface it twice, not once. -/
theorem exhaustedToast_counterexample :
    (handleVideoError (handleVideoError cst4 .network "u") .network
      "u").exhaustedToastCount = 2 ∧
    ¬((handleVideoError (handleVideoError cst4 .network "u") .network
      "u").exhaustedToastCount = 1) := by
  refine ⟨by decide, by decide⟩

/-- C4 (amended: the all-sources-exhausted failure is surfaced once per
invocation, so repeated ticks that invoke `handleVideoError` again surface
it again — there is no dedup guard): when no fallback candidate exists the
active detail and the episodes list are left unmutated and the toast counter
grows by exactly one. -/
theorem handleVideoError_exhausted_amended (st : SysState)
    (errorType : VideoErrorType) (failedUrl : String) (d : SearchResult)
    (hd : st.detailSt.detail = some d)
    (hnone : getNextAvailableSource
      (markSourceAsFailed st.detailSt d.source
        (errorReasonString errorType failedUrl))
      d.source st.currentEpisodeIndex = none) :
    (handleVideoError st errorType failedUrl).detailSt.detail =
      st.detailSt.detail ∧
    (handleVideoError st errorType failedUrl).episodes = st.episodes ∧
    (handleVideoError st errorType failedUrl).exhaustedToastCount =
      st.exhaustedToastCount + 1 := by
  unfold handleVideoError
  simp only [markSourceAsFailed, hd] at hnone
  simp only [hd, markSourceAsFailed]
  simp only [hnone]
  exact ⟨trivial, trivial, trivial⟩

/-- Closed instance of the amended C4 theorem on `cst4`. -/
theorem handleVideoError_exhausted_amended_witness :
    (handleVideoError cst4 .network "u").detailSt.detail =
      cst4.detailSt.detail ∧
    (handleVideoError cst4 .network "u").episodes = cst4.episodes ∧
    (handleVideoError cst4 .network "u").exhaustedToastCount =
      cst4.exhaustedToastCount + 1 :=
  handleVideoError_exhausted_amended cst4 .network "u" srcA (by decide)
    (by decide)

/-- C5: whenever `handleVideoError` finds a fallback whose episode list
covers the current index, it switches the active detail to the fallback,
remaps the episodes to the fallback's URL list, and sets `initialPosition`
to the position recorded at the moment of the error — `positionMillis` of
the loaded status, 0 otherwise — never restarting from zero. -/
theorem handleVideoError_preserves_position (st : SysState)
    (errorType : VideoErrorType) (failedUrl : String) (d fb : SearchResult)
    (hd : st.detailSt.detail = some d)
    (hfb : getNextAvailableSource
      (markSourceAsFailed st.detailSt d.source
        (errorReasonString errorType failedUrl))
      d.source st.currentEpisodeIndex = some fb)
    (hlen : (fb.episodes.length : Int) > st.currentEpisodeIndex) :
    (handleVideoError st errorType failedUrl).detailSt.detail = some fb ∧
    (handleVideoError st errorType failedUrl).episodes =
      mapEpisodes fb.episodes ∧
    (handleVideoError st errorType failedUrl).initialPosition =
      (match st.status with
       | some (.loaded _ _ positionMillis _ _) => positionMillis
       | _ => 0) := by
  unfold handleVideoError
  simp only [markSourceAsFailed, hd] at hfb
  simp only [hd, markSourceAsFailed]
  simp only [hfb, setDetail]
  rw [if_pos hlen]
  refine ⟨rfl, rfl, ?_⟩
  cases hstat : st.status with
  | none => rfl
  | some s =>
    cases s with
    | notLoaded e => rfl
    | loaded pl bf pos dur fin =>
      by_cases hp : pos ≠ 0
      · simp [hp]
      · simp only [not_not] at hp
        subst hp
        simp

/-- Closed instance of the C5 theorem: on `bst` the failover switches to
`srcB` and resumes at the recorded 30000ms. -/
theorem handleVideoError_preserves_position_witness :
    (handleVideoError bst .network "u").detailSt.detail = some srcB ∧
    (handleVideoError bst .network "u").episodes = mapEpisodes srcB.episodes ∧
    (handleVideoError bst .network "u").initialPosition = 30000 :=
  handleVideoError_preserves_position bst .network "u" srcA srcB (by decide)
    (by decide) (by decide)

/-- C6: in `loadVideo`'s preload-failure fallback path, the code reassigns
the local `detail` to the fallback before marking "the original source" as
failed, so the newly active source "B" itself lands in `failedSources`
while the original "A" does not — the active source is a member of the
failed set, violating the invariant the claim states. -/
theorem loadVideo_preload_marks_active_source :
    ((loadVideoPreloadFallback st6 sA ["a1"] 0
      (fun u => u == "b1")).1.detailSt.detail) = some sB ∧
    "B" ∈ (loadVideoPreloadFallback st6 sA ["a1"] 0
      (fun u => u == "b1")).1.detailSt.failedSources ∧
    "A" ∉ (loadVideoPreloadFallback st6 sA ["a1"] 0
      (fun u => u == "b1")).1.detailSt.failedSources := by
  refine ⟨by decide, by decide, by decide⟩

/-- C7 counterexample: a probe whose fetch takes 3500ms returns `true`
(3500 < 4000), but the cached verdict a minute later is `false`
(3500 < 3000 fails) — the second call within 5 minutes does not return the
same usable/unusable boolean the first call returned. -/
theorem probeCache_counterexample :
    (preloadAndTestSource {} "http://v/x.mp4" 0 (.ok 3500)).verdict = true ∧
    (preloadAndTestSource
      (preloadAndTestSource {} "http://v/x.mp4" 0 (.ok 3500)).st
      "http://v/x.mp4" 60000 (.ok 3500)).verdict = false ∧
    (preloadAndTestSource
      (preloadAndTestSource {} "http://v/x.mp4" 0 (.ok 3500)).st
      "http://v/x.mp4" 60000 (.ok 3500)).fetchesIssued = 0 := by
  refine ⟨by decide, by decide, by decide⟩

/-- C7 (amended: the guarantee holds when the first call's fetch succeeds —
failures are not cached, and the cached verdict uses the stricter 3000ms
threshold, not the 4000ms one of the fresh verdict, so the two verdicts can
differ): after a successful uncached probe, a second call within 5 minutes
issues no fetch and returns `responseTime < 3000`. -/
theorem probeCache_amended (st : SysState) (url : String)
    (now1 now2 rt : Nat) (net2 : FetchOutcome)
    (hmiss : st._cachedSources.lookup url = none)
    (hfresh : now2 - now1 < 5 * 60 * 1000) :
    (preloadAndTestSource st url now1 (.ok rt)).fetchesIssued = 1 ∧
    (preloadAndTestSource st url now1 (.ok rt)).verdict = decide (rt < 4000) ∧
    (preloadAndTestSource (preloadAndTestSource st url now1 (.ok rt)).st url
      now2 net2).fetchesIssued = 0 ∧
    (preloadAndTestSource (preloadAndTestSource st url now1 (.ok rt)).st url
      now2 net2).verdict = decide (rt < 3000) := by
  have h1 : preloadAndTestSource st url now1 (.ok rt) =
      { verdict := rt < 4000
        st := { st with _cachedSources :=
          (url, { url := url, timestamp := now1, responseTime := rt })
            :: st._cachedSources }
        fetchesIssued := 1 } := by
    unfold preloadAndTestSource
    rw [hmiss]
    by_cases hm : strEndsWith url ".m3u8" = true
    · rw [if_pos hm]
    · rw [if_neg hm]
  rw [h1]
  refine ⟨rfl, rfl, ?_, ?_⟩ <;>
  · unfold preloadAndTestSource
    simp [List.lookup, hfresh]

/-- Closed instance of the amended C7 theorem. -/
theorem probeCache_amended_witness :
    (preloadAndTestSource {} "http://v/x.mp4" 0 (.ok 3500)).fetchesIssued = 1 ∧
    (preloadAndTestSource {} "http://v/x.mp4" 0 (.ok 3500)).verdict =
      decide ((3500 : Nat) < 4000) ∧
    (preloadAndTestSource
      (preloadAndTestSource {} "http://v/x.mp4" 0 (.ok 3500)).st
      "http://v/x.mp4" 60000 .failure).fetchesIssued = 0 ∧
    (preloadAndTestSource
      (preloadAndTestSource {} "http://v/x.mp4" 0 (.ok 3500)).st
      "http://v/x.mp4" 60000 .failure).verdict = decide ((3500 : Nat) < 3000) :=
  probeCache_amended {} "http://v/x.mp4" 0 60000 3500 .failure (by decide)
    (by decide)

/-- C8 counterexample: a playback position of 1500ms is saved as
`Math.floor(1500 / 1000) = 1` second and restored as 1000ms — the
round-trip is not bit-for-bit. -/
theorem playRecordRoundtrip_counterexample :
    (loadVideoRestore (savePlayRecordOp cst8 {} true) d8 none 0
      ["a1"]).initialPosition = 1000 ∧
    ¬((loadVideoRestore (savePlayRecordOp cst8 {} true) d8 none 0
      ["a1"]).initialPosition = 1500) := by
  refine ⟨by decide, by decide⟩

/-- C8 (amended: the position is restored rounded down to whole seconds —
`(position_ms / 1000) * 1000` — not bit-for-bit; the intro/outro markers
are restored bit-for-bit whenever they are set and nonzero): saving via
`_savePlayRecord` and loading via `loadVideo` for the same (source, id)
yields exactly these values. -/
theorem playRecordRoundtrip_amended (st : SysState) (d : SearchResult)
    (pl bf : Bool) (pos : Nat) (dur : Option Nat) (fin : Bool)
    (epIdx : Int) (eps : List String) (i o : Nat)
    (hd : st.detailSt.detail = some d)
    (hst : st.status = some (.loaded pl bf pos dur fin))
    (hi : st.introEndTime = some i) (hi0 : i ≠ 0)
    (ho : st.outroStartTime = some o) (ho0 : o ≠ 0) :
    (loadVideoRestore (savePlayRecordOp st {} true) d none epIdx
      eps).initialPosition = pos / 1000 * 1000 ∧
    (loadVideoRestore (savePlayRecordOp st {} true) d none epIdx
      eps).introEndTime = some i ∧
    (loadVideoRestore (savePlayRecordOp st {} true) d none epIdx
      eps).outroStartTime = some o := by
  have hsave : savePlayRecordOp st {} true =
      { st with playRecords :=
          ((d.source, toString d.id),
            { title := d.title
              cover := d.poster
              index := st.currentEpisodeIndex + 1
              total_episodes := st.episodes.length
              play_time := pos / 1000
              total_time :=
                match dur with
                | some x => if x ≠ 0 then x / 1000 else 0
                | none => 0
              source_name := d.source_name
              year := d.year
              introEndTime := some i
              outroStartTime := some o }) :: st.playRecords } := by
    unfold savePlayRecordOp
    simp [hd, hst, hi, ho]
    cases dur <;> rfl
  rw [hsave]
  unfold loadVideoRestore
  simp only [List.lookup, beq_self_eq_true, if_true]
  refine ⟨?_, ?_, ?_⟩
  · simp only [jsOrNat, Option.bind, jsOrOpt]
    by_cases hq : pos / 1000 ≠ 0
    · simp [hq]
    · simp only [not_not] at hq
      simp [hq]
  · simp [jsOrOpt, hi0]
  · simp [jsOrOpt, ho0]

/-- Closed instance of the amended C8 theorem on `cst8`. -/
theorem playRecordRoundtrip_amended_witness :
    (loadVideoRestore (savePlayRecordOp cst8 {} true) d8 none 0
      ["a1"]).initialPosition = 1500 / 1000 * 1000 ∧
    (loadVideoRestore (savePlayRecordOp cst8 {} true) d8 none 0
      ["a1"]).introEndTime = some 90 ∧
    (loadVideoRestore (savePlayRecordOp cst8 {} true) d8 none 0
      ["a1"]).outroStartTime = some 120 :=
  playRecordRoundtrip_amended cst8 d8 true false 1500 (some 90000) false 0
    ["a1"] 90 120 (by decide) (by decide) (by decide) (by decide) (by decide)
    (by decide)

/-! Field-preservation lemmas feeding the buffering-escalation theorem. -/

theorem playEpisode_fields (st : SysState) (i : Int) :
    (playEpisode st i).handleVideoErrorCount = st.handleVideoErrorCount ∧
    (playEpisode st i)._bufferingTimeout = st._bufferingTimeout ∧
    (playEpisode st i)._bufferingRetryCount = st._bufferingRetryCount := by
  unfold playEpisode
  split <;> exact ⟨rfl, rfl, rfl⟩

theorem savePlayRecordOp_fields (st : SysState) (u : PlayRecordUpdates)
    (imm : Bool) :
    (savePlayRecordOp st u imm).handleVideoErrorCount =
      st.handleVideoErrorCount ∧
    (savePlayRecordOp st u imm)._bufferingTimeout = st._bufferingTimeout ∧
    (savePlayRecordOp st u imm)._bufferingRetryCount =
      st._bufferingRetryCount := by
  simp only [savePlayRecordOp]
  repeat' split
  all_goals exact ⟨rfl, rfl, rfl⟩

theorem detectBuffering_count (st : SysState) (pl bf : Bool) (pos : Nat)
    (dur : Option Nat) (now : Nat) :
    (detectBuffering st pl bf pos dur now).handleVideoErrorCount =
      st.handleVideoErrorCount := by
  simp only [detectBuffering]
  repeat' split
  all_goals rfl

theorem detectBuffering_inv (st : SysState) (pl bf : Bool) (pos : Nat)
    (dur : Option Nat) (now : Nat) (h : BufferingInv st) :
    BufferingInv (detectBuffering st pl bf pos dur now) := by
  unfold BufferingInv at *
  simp only [detectBuffering]
  repeat' split
  all_goals simp_all

theorem fireBufferingTimeout_count_inv (st : SysState) (h : BufferingInv st) :
    (fireBufferingTimeout st).handleVideoErrorCount =
      st.handleVideoErrorCount ∧
    BufferingInv (fireBufferingTimeout st) := by
  unfold BufferingInv at *
  cases htimer : st._bufferingTimeout with
  | none =>
    unfold fireBufferingTimeout
    rw [htimer]
    exact ⟨rfl, h⟩
  | some timer =>
    have hretry : st._bufferingRetryCount = 0 := h (by rw [htimer]; rfl)
    unfold fireBufferingTimeout
    rw [htimer]
    cases hstat : st.status with
    | none =>
      refine ⟨rfl, fun hc => ?_⟩
      simp at hc
    | some s =>
      cases s with
      | notLoaded e =>
        refine ⟨rfl, fun hc => ?_⟩
        simp at hc
      | loaded pl bfg pos dur fin =>
        simp only [hretry]
        repeat' split
        all_goals simp_all

theorem handleLoaded_count (st : SysState) (pl bf : Bool) (pos : Nat)
    (dur : Option Nat) (fin : Bool) (now : Nat) :
    (handlePlaybackStatusUpdate st (.loaded pl bf pos dur fin)
      now).handleVideoErrorCount = st.handleVideoErrorCount := by
  simp only [handlePlaybackStatusUpdate]
  repeat' split
  all_goals
    simp [playEpisode_fields, savePlayRecordOp_fields, detectBuffering_count,
      (savePlayRecordOp_fields _ _ _).1, (playEpisode_fields _ _).1]

theorem handleLoaded_inv (st : SysState) (pl bf : Bool) (pos : Nat)
    (dur : Option Nat) (fin : Bool) (now : Nat) (h : BufferingInv st) :
    BufferingInv (handlePlaybackStatusUpdate st (.loaded pl bf pos dur fin)
      now) := by
  have hdet := detectBuffering_inv st pl bf pos dur now h
  unfold BufferingInv at *
  simp only [handlePlaybackStatusUpdate]
  repeat' split
  all_goals
    simp only [(playEpisode_fields _ _).2.1, (playEpisode_fields _ _).2.2,
      (savePlayRecordOp_fields _ _ _).2.1, (savePlayRecordOp_fields _ _ _).2.2]
  all_goals exact hdet

/-- The step of any loaded tick, timer firing or throttle expiry preserves
the invocation count of `handleVideoError` and the buffering invariant. -/
theorem stepEvent_good (st : SysState) (e : SimEvent)
    (hg : isLoadedTickOrTimer e = true) (h : BufferingInv st) :
    (stepEvent st e).handleVideoErrorCount = st.handleVideoErrorCount ∧
    BufferingInv (stepEvent st e) := by
  cases e with
  | status s now =>
    cases s with
    | notLoaded err => simp [isLoadedTickOrTimer] at hg
    | loaded pl bf pos dur fin =>
      exact ⟨handleLoaded_count st pl bf pos dur fin now,
        handleLoaded_inv st pl bf pos dur fin now h⟩
  | bufferingTimeoutFires => exact fireBufferingTimeout_count_inv st h
  | saveThrottleExpires => exact ⟨rfl, h⟩

/-- C1 counterexample: a >20-second buffering sequence with nonzero
position, known duration, no user pause and no seek — the single timeout
armed at onset fires with `_bufferingRetryCount = 0` and only rewinds, so
`handleVideoError` is invoked 0 times, not exactly once as claimed. -/
theorem bufferingEscalation_counterexample :
    (runEvents bst traceC1).handleVideoErrorCount = 0 ∧
    ¬((runEvents bst traceC1).handleVideoErrorCount = 1) := by
  refine ⟨by decide, by decide⟩

/-- C1 (amended: such a sequence invokes fallback source selection zero
times, not once — the timeout armed at buffering onset always fires with
retry count 0 and performs at most the 5-second rewind, and it is never
re-armed while the same buffering spell lasts; with `isUserPaused` true
throughout it is likewise never invoked): from any state satisfying the
arming invariant, no sequence of loaded status ticks, timer firings and
throttle expiries ever invokes `handleVideoError`. -/
theorem bufferingEscalation_never_invokes_failover (st : SysState)
    (evs : List SimEvent) (hinv : BufferingInv st)
    (hevs : ∀ e ∈ evs, isLoadedTickOrTimer e = true) :
    (runEvents st evs).handleVideoErrorCount = st.handleVideoErrorCount := by
  induction evs generalizing st with
  | nil => rfl
  | cons e evs ih =>
    have hg : isLoadedTickOrTimer e = true := hevs e (by simp)
    obtain ⟨hcount, hinv'⟩ := stepEvent_good st e hg hinv
    have := ih (stepEvent st e) hinv' (fun e' he' => hevs e' (by simp [he']))
    unfold runEvents at this ⊢
    rw [List.foldl_cons, this, hcount]

/-- Closed instance of the amended C1 theorem on the concrete buffering
trace. -/
theorem bufferingEscalation_never_invokes_failover_witness :
    (runEvents bst traceC1).handleVideoErrorCount =
      bst.handleVideoErrorCount :=
  bufferingEscalation_never_invokes_failover bst traceC1
    (by unfold BufferingInv; decide) (by decide)

end OrionTV
